import Mathlib

/-
Verification of the annotation layer of the `oggm-3dviz` repository
(`oggm_3dviz/tools/map_annotations.py`), as a shallow embedding.

Modelling conventions:
* Python floats become exact rationals (ℚ); the formulas at stake are plain
  affine arithmetic so nothing is lost.
* A dataset field (an xarray 1D array of coordinates or elevations) becomes a
  `List ℚ`; `.min()` / `.max()` become folds over the list.
* A 2D mask field becomes a `List (List ℤ)` (row-major, as numpy indexes it).
* A Python keyword dictionary becomes an association list `List (String × Val)`
  in insertion order; `dict.setdefault` appends the pair at the end when the
  key is absent, exactly as CPython does.
* A render call (`add_annotation`) is translated to a function producing the
  list of draw calls issued to the pyvista plotter; fallible code (a `KeyError`
  on a missing dataset field, a `TypeError` on iterating `None`, an invalid
  color) returns `Except String`.
* Mesh objects have identity in Python (`copy.deepcopy` matters), so meshes
  live on an explicit heap (`List Mesh` indexed by position) and the plotter's
  `add_mesh(mesh, texture=...)` is modelled as mutating the mesh object it is
  handed (setting its active texture state).
-/

namespace OggmViz

/-- A value stored in a Python keyword-argument dictionary, covering the kinds
of values the module actually puts there: booleans, strings, numbers, lists of
numbers, tuples of numbers and Python `None`. -/
inductive Val where
  | vBool : Bool → Val
  | vStr : String → Val
  | vNum : ℚ → Val
  | vList : List ℚ → Val
  | vTuple : List ℚ → Val
  | vNone : Val
  deriving DecidableEq, Repr

/-- A Python keyword dictionary, as an association list in insertion order. -/
abbrev Kwargs := List (String × Val)

/-- Python `dict.setdefault(k, v)`: leave the dictionary unchanged when the key
is present, otherwise insert the pair at the end (CPython insertion order). -/
def setdefault (d : Kwargs) (k : String) (v : Val) : Kwargs :=
  match d.lookup k with
  | some _ => d
  | none => d ++ [(k, v)]

/-- A color argument as the module receives it: either a named color string or
an explicit RGB/RGBA sequence on the 0–255 scale. -/
inductive ColorInput where
  | name : String → ColorInput
  | rgba : List ℕ → ColorInput
  deriving DecidableEq, Repr

/-- Modelled from the spec: the color-normalization utility `check_color`
(`oggm_3dviz/tools/utils.py`, whose source is not part of the material at
hand) "accepts a named color string or an explicit RGBA/RGB sequence (0–255
scale) and returns a canonical 4-byte RGBA value; fails on unrecognized
strings or malformed sequences". A handful of standard color names suffices
for the claims. -/
def check_color : ColorInput → Option (List ℕ)
  | .name s =>
      if s = "black" then some [0, 0, 0, 255]
      else if s = "white" then some [255, 255, 255, 255]
      else if s = "blue" then some [0, 0, 255, 255]
      else if s = "red" then some [255, 0, 0, 255]
      else none
  | .rgba l =>
      if l.length = 4 ∧ l.all (fun c => c ≤ 255) then some l
      else if l.length = 3 ∧ l.all (fun c => c ≤ 255) then some (l ++ [255])
      else none

/-- An RGBA texture image: a grid of pixels, each a list of channel bytes. -/
abbrev Texture := List (List (List ℕ))

/-- A pyvista mesh object as far as the annotations observe it: its structured
grid shape and the mutable active-texture state that `add_mesh(texture=...)`
sets on the object it is given. -/
structure Mesh where
  gridShape : ℕ × ℕ
  activeTexture : Option Texture
  deriving DecidableEq, Repr

/-- The heap of mesh objects; a mesh reference is an index into it. -/
abbrev Heap := List Mesh

/-- Placeholder mesh used to totalize heap reads at dangling references. -/
def defaultMesh : Mesh := { gridShape := (0, 0), activeTexture := none }

/-- The shared visualization context (`viz.Glacier3DViz`), as the annotations
read it: the x/y coordinate fields, the bedrock-elevation field, the named
mask fields, and a reference to the terrain mesh object on the heap. -/
structure Glacier3DViz where
  xField : List ℚ
  yField : List ℚ
  bedrockField : List ℚ
  maskFields : List (String × List (List ℤ))
  topo_mesh : ℕ
  deriving DecidableEq, Repr

/-- `array.min()` on a dataset field (0 on an empty field, never reached by
the claims). -/
def listMin : List ℚ → ℚ
  | [] => 0
  | x :: xs => xs.foldl min x

/-- `array.max()` on a dataset field. -/
def listMax : List ℚ → ℚ
  | [] => 0
  | x :: xs => xs.foldl max x

/-- A 3D point or vector. -/
abbrev Vec3 := ℚ × ℚ × ℚ

/-- Componentwise addition of numpy 1×3 arrays. -/
def vAdd (a b : Vec3) : Vec3 := (a.1 + b.1, a.2.1 + b.2.1, a.2.2 + b.2.2)

/-- Componentwise scaling of a numpy 1×3 array by a scalar on the right,
mirroring `array * scalar`. -/
def vMulS (a : Vec3) (s : ℚ) : Vec3 := (a.1 * s, a.2.1 * s, a.2.2 * s)

/-- A draw call issued to the pyvista plotter: `add_arrows`,
`add_point_labels`, `add_mesh(texture=...)` (carrying the mesh reference), or
`add_legend`. -/
inductive DrawCall where
  | arrows : Vec3 → Vec3 → ℚ → Kwargs → DrawCall
  | pointLabels : List Vec3 → List String → Kwargs → DrawCall
  | meshDraw : ℕ → Texture → DrawCall
  | legend : List (String × ColorInput) → Kwargs → DrawCall
  deriving DecidableEq, Repr

/-- The plotter's side effect of one draw call on the mesh heap:
`add_mesh(mesh, texture=...)` sets the active texture of the mesh object it is
handed; the other calls touch no mesh. -/
def applyDrawCall (h : Heap) : DrawCall → Heap
  | .meshDraw r tex => h.set r { h.getD r defaultMesh with activeTexture := some tex }
  | _ => h

/-- The plotter's cumulative effect of a render's draw calls on the mesh heap. -/
def renderEffect (h : Heap) (calls : List DrawCall) : Heap :=
  calls.foldl applyDrawCall h

/-- `PointAnnotation`: geographic point plus display text and pass-through
label-draw options. -/
structure PointAnnotation where
  latitude : ℚ
  longitude : ℚ
  height : ℚ
  text : String
  kwargs : Kwargs
  deriving DecidableEq, Repr

/-- `PointAnnotation.add_annotation`: reproject the geographic coordinates
through the context's projection (the pyproj `Proj` object, supplied here as
the function `proj` since pyproj is an external collaborator) and issue one
`add_point_labels` call at the projected point with the configured height. -/
def PointAnnotation.add_annotation (self : PointAnnotation)
    (proj : ℚ → ℚ → ℚ × ℚ) (_g : Glacier3DViz) : List DrawCall :=
  let p := proj self.latitude self.longitude
  [.pointLabels [(p.1, p.2, self.height)] [self.text] self.kwargs]

/-- `ArrowAnnotation` state after construction. -/
structure ArrowAnnotation where
  x_position : ℚ
  y_position : ℚ
  z_position : ℚ
  arrow_direction : Vec3
  arrow_magnitude_relative : ℚ
  text : String
  text_position : ℚ
  arrow_kwargs : Kwargs
  text_kwargs : Kwargs
  deriving DecidableEq, Repr

/-- The `setdefault` chain `ArrowAnnotation.__init__` applies to the caller's
`arrow_kwargs` dictionary. -/
def arrowMergeKwargs (d : Kwargs) : Kwargs :=
  setdefault (setdefault d "show_scalar_bar" (.vBool false))
    "color" (.vList [1/5, 1/5, 1/5])

/-- The `setdefault` chain `ArrowAnnotation.__init__` applies to the caller's
`text_kwargs` dictionary. -/
def textMergeKwargs (d : Kwargs) : Kwargs :=
  setdefault (setdefault (setdefault d "shape" .vNone)
    "show_points" (.vBool false)) "font_size" (.vNum 30)

/-- `ArrowAnnotation.__init__`: store the configuration and apply the default
`setdefault` chains to the two (possibly omitted) option dictionaries. Because
`setdefault` mutates in place and the dictionaries are stored without copying,
the stored dictionaries are the caller's own objects. -/
def ArrowAnnotation.init (x_position y_position z_position : ℚ)
    (x_direction y_direction z_direction arrow_magnitude : ℚ)
    (text : String) (text_position : ℚ)
    (arrow_kwargs text_kwargs : Option Kwargs) : ArrowAnnotation :=
  { x_position := x_position
    y_position := y_position
    z_position := z_position
    arrow_direction := (x_direction, y_direction, z_direction)
    arrow_magnitude_relative := arrow_magnitude
    text := text
    text_position := text_position
    arrow_kwargs := arrowMergeKwargs (arrow_kwargs.getD [])
    text_kwargs := textMergeKwargs (text_kwargs.getD []) }

/-- The inner helper of `ArrowAnnotation.set_arrow_position`. -/
def get_position (minimum maximum position : ℚ) : ℚ :=
  minimum + position * (maximum - minimum)

/-- `ArrowAnnotation.set_arrow_position`: the arrow anchor, one
`get_position` call per axis (x and y from the dataset's x/y coordinate
fields, z from the bedrock-elevation field). -/
def ArrowAnnotation.set_arrow_position (self : ArrowAnnotation)
    (g : Glacier3DViz) : Vec3 :=
  (get_position (listMin g.xField) (listMax g.xField) self.x_position,
   get_position (listMin g.yField) (listMax g.yField) self.y_position,
   get_position (listMin g.bedrockField) (listMax g.bedrockField) self.z_position)

/-- `ArrowAnnotation.set_arrow_magnitude`: the y-axis extent times the
relative magnitude fraction. -/
def ArrowAnnotation.set_arrow_magnitude (self : ArrowAnnotation)
    (g : Glacier3DViz) : ℚ :=
  (listMax g.yField - listMin g.yField) * self.arrow_magnitude_relative

/-- `ArrowAnnotation.add_annotation`: recompute anchor and magnitude, then
issue the `add_arrows` call and the `add_point_labels` call at
`arrow_cent + arrow_direction * arrow_magnitude * text_position`. -/
def ArrowAnnotation.add_annotation (self : ArrowAnnotation)
    (g : Glacier3DViz) : List DrawCall :=
  let arrow_cent := self.set_arrow_position g
  let arrow_magnitude := self.set_arrow_magnitude g
  [.arrows arrow_cent self.arrow_direction arrow_magnitude self.arrow_kwargs,
   .pointLabels
     [vAdd arrow_cent (vMulS (vMulS self.arrow_direction arrow_magnitude)
       self.text_position)]
     [self.text] self.text_kwargs]

/-- The point actually handed to the text-label draw call of an arrow render,
read off from the draw-call list `add_annotation` produces. -/
def arrowTextPoint (self : ArrowAnnotation) (g : Glacier3DViz) : Vec3 :=
  match self.add_annotation g with
  | [_, .pointLabels (p :: _) _ _] => p
  | _ => (0, 0, 0)

/-- `OutlineAnnotation` state after construction: the mask field name and the
normalized color. -/
structure OutlineAnnotation where
  outline_data : String
  outline_color : List ℕ
  deriving DecidableEq, Repr

/-- `OutlineAnnotation.__init__`: store the field name and normalize the
color through `check_color` (an invalid color raises there). -/
def OutlineAnnotation.init (outline_data : String) (outline_color : ColorInput) :
    Except String OutlineAnnotation :=
  match check_color outline_color with
  | none => .error "check_color: invalid color"
  | some col => .ok { outline_data := outline_data, outline_color := col }

/-- `OutlineAnnotation.set_outline_texture`: fetch the mask field from the
dataset (a missing name raises a `KeyError`), build a zeroed RGBA byte array
of the mask's shape with 4 channels appended, and write the normalized color
into every pixel where the mask equals 1. -/
def OutlineAnnotation.set_outline_texture (self : OutlineAnnotation)
    (g : Glacier3DViz) : Except String Texture :=
  match g.maskFields.lookup self.outline_data with
  | none => .error "KeyError: no such field in dataset"
  | some mask =>
      .ok (mask.map (fun row =>
        row.map (fun v => if v = 1 then self.outline_color else [0, 0, 0, 0])))

/-- `OutlineAnnotation.add_annotation`: build the texture, deep-copy the
context's terrain mesh (allocating a fresh mesh object on the heap with the
same value), and issue the `add_mesh(texture=...)` call against the copy. -/
def OutlineAnnotation.add_annotation (self : OutlineAnnotation)
    (g : Glacier3DViz) (h : Heap) : Except String (Heap × List DrawCall) := do
  let tex ← self.set_outline_texture g
  let h2 := h ++ [h.getD g.topo_mesh defaultMesh]
  .ok (h2, [.meshDraw h.length tex])

/-- `LegendAnnotation` state after construction: the normalized label list and
the merged option dictionary. -/
structure LegendAnnotation where
  labels : List (String × ColorInput)
  kwargs : Kwargs
  deriving DecidableEq, Repr

/-- The loop of `LegendAnnotation.__init__`: overwrite every entry's color
with its `check_color` normalization, failing on the first invalid color. -/
def normalizeLabels : List (String × ColorInput) →
    Except String (List (String × ColorInput))
  | [] => .ok []
  | (t, c) :: rest =>
      match check_color c with
      | none => .error "check_color: invalid color"
      | some col => do
          let rest2 ← normalizeLabels rest
          .ok ((t, .rgba col) :: rest2)

/-- The `setdefault` chain `LegendAnnotation.__init__` applies to the caller's
keyword dictionary. -/
def legendMergeKwargs (d : Kwargs) : Kwargs :=
  setdefault (setdefault (setdefault (setdefault d
    "bcolor" (.vTuple [1/2, 1/2, 1/2]))
    "size" (.vTuple [1/5, 1/10]))
    "loc" (.vStr "lower center"))
    "face" (.vStr "rectangle")

/-- `LegendAnnotation.__init__`: store the labels, run the normalization loop
over `self.labels` — when `labels` is `None` (the default) the `for` loop
iterates over `None` and raises a `TypeError` — and apply the default
`setdefault` chain to the keyword dictionary. -/
def LegendAnnotation.init (labels : Option (List (String × ColorInput)))
    (kwargs : Kwargs) : Except String LegendAnnotation :=
  match labels with
  | none => .error "TypeError: NoneType object is not iterable"
  | some ls => do
      let ls2 ← normalizeLabels ls
      .ok { labels := ls2, kwargs := legendMergeKwargs kwargs }

/-- `LegendAnnotation.add_annotation`: a single `add_legend` call with the
stored labels and merged options. -/
def LegendAnnotation.add_annotation (self : LegendAnnotation)
    (_g : Glacier3DViz) : List DrawCall :=
  [.legend self.labels self.kwargs]

/-- The keyword dictionary a draw call carries to the plotter (`add_mesh` is
called here with only positional mesh/texture arguments, hence `[]`). -/
def drawCallKwargs : DrawCall → Kwargs
  | .arrows _ _ _ kw => kw
  | .pointLabels _ _ kw => kw
  | .meshDraw _ _ => []
  | .legend _ kw => kw

/-- The shape of a 2D mask field (numpy `array.shape`). -/
def maskShape (m : List (List ℤ)) : ℕ × ℕ :=
  (m.length, (m.headD []).length)

/-- Whether an `Except` computation finished without raising. -/
def exceptOk {α : Type} : Except String α → Bool
  | .ok _ => true
  | .error _ => false

/-- The fixed defaults `ArrowAnnotation.__init__` gives `arrow_kwargs`. -/
def arrowDefaultKwargs : Kwargs :=
  [("show_scalar_bar", .vBool false), ("color", .vList [1/5, 1/5, 1/5])]

/-- The fixed defaults `ArrowAnnotation.__init__` gives `text_kwargs`. -/
def textDefaultKwargs : Kwargs :=
  [("shape", .vNone), ("show_points", .vBool false), ("font_size", .vNum 30)]

/-- The fixed defaults `LegendAnnotation.__init__` gives its kwargs. -/
def legendDefaultKwargs : Kwargs :=
  [("bcolor", .vTuple [1/2, 1/2, 1/2]), ("size", .vTuple [1/5, 1/10]),
   ("loc", .vStr "lower center"), ("face", .vStr "rectangle")]

/-- Folding `setdefault` over a list of default pairs, left to right. -/
def applyDefaults (d : Kwargs) (defs : Kwargs) : Kwargs :=
  defs.foldl (fun acc p => setdefault acc p.1 p.2) d

/-- Lookup in a concatenated association list tries the left part first. -/
theorem lookup_append (l₁ l₂ : Kwargs) (k : String) :
    (l₁ ++ l₂).lookup k = ((l₁.lookup k).orElse (fun _ => l₂.lookup k)) := by
  induction l₁ with
  | nil => simp [List.lookup, Option.orElse]
  | cons p t ih =>
      obtain ⟨a, b⟩ := p
      simp only [List.cons_append, List.lookup]
      cases h : (k == a) <;> simp [Option.orElse, ih]

/-- The effect of a single `setdefault` on lookups: the key being defaulted
falls back to the given value, every other key is untouched. -/
theorem lookup_setdefault (d : Kwargs) (k k2 : String) (v : Val) :
    (setdefault d k2 v).lookup k =
      if k = k2 then ((d.lookup k2).orElse (fun _ => some v)) else d.lookup k := by
  unfold setdefault
  cases h : d.lookup k2 with
  | some w =>
      by_cases hk : k = k2
      · subst hk; simp [h, Option.orElse]
      · simp [hk]
  | none =>
      rw [lookup_append]
      by_cases hk : k = k2
      · subst hk; simp [h, List.lookup, Option.orElse]
      · simp [hk, List.lookup, beq_iff_eq, Option.orElse]
        cases d.lookup k <;> simp [beq_eq_false_iff_ne.mpr hk]

/-- A `setdefault` chain behaves as: the caller's entry if present, otherwise
the first matching default. -/
theorem lookup_applyDefaults (defs : Kwargs) (d : Kwargs) (k : String) :
    (applyDefaults d defs).lookup k
      = ((d.lookup k).orElse (fun _ => defs.lookup k)) := by
  induction defs generalizing d with
  | nil =>
      cases h : d.lookup k <;>
        simp [applyDefaults, h, Option.orElse, List.lookup]
  | cons p rest ih =>
      obtain ⟨k0, v0⟩ := p
      simp only [applyDefaults, List.foldl] at *
      rw [ih, lookup_setdefault]
      by_cases hk : k = k0
      · subst hk
        simp [List.lookup]
        cases d.lookup k <;> simp [Option.orElse]
      · simp [List.lookup, beq_eq_false_iff_ne.mpr hk, hk]

/-- A `setdefault` chain only ever appends entries after the caller's own. -/
theorem applyDefaults_append (defs : Kwargs) (d : Kwargs) :
    ∃ tl, applyDefaults d defs = d ++ tl := by
  induction defs generalizing d with
  | nil => exact ⟨[], by simp [applyDefaults]⟩
  | cons p rest ih =>
      simp only [applyDefaults, List.foldl] at *
      obtain ⟨tl, htl⟩ := ih (setdefault d p.1 p.2)
      cases h : d.lookup p.1 with
      | some w =>
          refine ⟨tl, ?_⟩
          rw [htl]
          simp [setdefault, h]
      | none =>
          refine ⟨(p.1, p.2) :: tl, ?_⟩
          rw [htl]
          simp [setdefault, h]

/-- The normalization loop of `LegendAnnotation.__init__`, characterized
entrywise: same length, and every entry keeps its text while its color becomes
the `check_color` normalization. -/
theorem normalizeLabels_spec (L ls2 : List (String × ColorInput))
    (h : normalizeLabels L = .ok ls2) :
    ls2.length = L.length
    ∧ ∀ (i : ℕ) (p : String × ColorInput), L[i]? = some p →
        ∃ col, check_color p.2 = some col ∧ ls2[i]? = some (p.1, .rgba col) := by
  induction L generalizing ls2 with
  | nil =>
      simp only [normalizeLabels] at h
      cases h
      simp
  | cons p rest ih =>
      obtain ⟨t, c⟩ := p
      simp only [normalizeLabels] at h
      cases hc : check_color c with
      | none => rw [hc] at h; cases h
      | some col =>
          rw [hc] at h
          cases hr : normalizeLabels rest with
          | error e => rw [hr] at h; cases h
          | ok rest2 =>
              rw [hr] at h
              have h2 : ((t, ColorInput.rgba col) :: rest2) = ls2 := by
                cases h; rfl
              subst h2
              obtain ⟨hlen, hent⟩ := ih rest2 hr
              refine ⟨by simp [hlen], ?_⟩
              intro i q hq
              cases i with
              | zero =>
                  simp only [List.getElem?_cons_zero, Option.some.injEq] at hq
                  subst hq
                  exact ⟨col, hc, by simp⟩
              | succ j =>
                  simp only [List.getElem?_cons_succ] at hq ⊢
                  exact hent j q hq

/-- The dataset context of the spec's worked scenario: x spanning 0..10,
y spanning 0..20, bedrock spanning 100..200. -/
def scenarioCtx : Glacier3DViz :=
  { xField := [0, 10], yField := [0, 20], bedrockField := [100, 200],
    maskFields := [], topo_mesh := 0 }

/-- The arrow of the spec's worked scenario: all three position fractions 1/2
and relative magnitude 1/10. -/
def scenarioArrow : ArrowAnnotation :=
  ArrowAnnotation.init (1/2) (1/2) (1/2) 0 1 0 (1/10) "N" (13/10) none none

/-- A small concrete context holding a 2×2 outline mask and one mesh object. -/
def outlineCtx : Glacier3DViz :=
  { xField := [0, 1], yField := [0, 1], bedrockField := [0, 1],
    maskFields := [("glacier_ext", [[0, 1], [1, 0]])], topo_mesh := 0 }

/-- A one-mesh heap whose mesh has a 3×3 structured grid. -/
def outlineHeap : Heap :=
  [{ gridShape := (3, 3), activeTexture := none }]

/-- The outline annotation with a normalized black color. -/
def outlineAnn : OutlineAnnotation :=
  { outline_data := "glacier_ext", outline_color := [0, 0, 0, 255] }

/-- The texture the 2×2 mask above produces with a black outline color. -/
def outlineTex : Texture :=
  [[[0, 0, 0, 0], [0, 0, 0, 255]], [[0, 0, 0, 255], [0, 0, 0, 0]]]

/-- C1: for every dataset context and every triple of position fractions, the
arrow anchor is `minimum + fraction × (maximum − minimum)` per axis, with x
and y extents from the dataset's x/y coordinate fields and z from the
bedrock-elevation field; fraction 0 gives the axis minimum, fraction 1 the
axis maximum, fractions outside [0,1] extrapolate by the same formula; in the
spec's scenario (x 0..10, y 0..20, bedrock 100..200, fractions 1/2) the
anchor is (5, 10, 150). -/
theorem arrow_anchor_linear_interpolation (g : Glacier3DViz) (a : ArrowAnnotation) :
    a.set_arrow_position g =
      (listMin g.xField + a.x_position * (listMax g.xField - listMin g.xField),
       listMin g.yField + a.y_position * (listMax g.yField - listMin g.yField),
       listMin g.bedrockField
         + a.z_position * (listMax g.bedrockField - listMin g.bedrockField))
    ∧ ({ a with x_position := 0, y_position := 0, z_position := 0 }
        : ArrowAnnotation).set_arrow_position g
        = (listMin g.xField, listMin g.yField, listMin g.bedrockField)
    ∧ ({ a with x_position := 1, y_position := 1, z_position := 1 }
        : ArrowAnnotation).set_arrow_position g
        = (listMax g.xField, listMax g.yField, listMax g.bedrockField)
    ∧ scenarioArrow.set_arrow_position scenarioCtx = (5, 10, 150) := by
  refine ⟨rfl, ?_, ?_, ?_⟩
  · simp [ ArrowAnnotation.set_arrow_position, get_position]
  · simp only [ ArrowAnnotation.set_arrow_position, get_position, Prod.mk.injEq]
    refine ⟨by ring, by ring, by ring⟩
  · simp only [scenarioArrow, scenarioCtx, ArrowAnnotation.init,
      ArrowAnnotation.set_arrow_position, get_position, listMin, listMax,
      List.foldl, Prod.mk.injEq]
    norm_num

/-- C2: the computed arrow magnitude is always
`arrow_magnitude_relative × (max(y) − min(y))`, scaled against the y-axis
extent only; it does not depend on the direction vector or the three position
fractions; in the spec's scenario it is 2 = 1/10 × (20 − 0). -/
theorem arrow_magnitude_y_extent_only (g : Glacier3DViz) (a : ArrowAnnotation) :
    a.set_arrow_magnitude g
        = a.arrow_magnitude_relative * (listMax g.yField - listMin g.yField)
    ∧ (∀ (d2 : Vec3) (xp yp zp : ℚ),
        ({ a with arrow_direction := d2, x_position := xp, y_position := yp,
                  z_position := zp } : ArrowAnnotation).set_arrow_magnitude g
          = a.set_arrow_magnitude g)
    ∧ scenarioArrow.set_arrow_magnitude scenarioCtx = 2 := by
  refine ⟨?_, fun d2 xp yp zp => rfl, ?_⟩
  · unfold ArrowAnnotation.set_arrow_magnitude
    ring
  · simp only [scenarioArrow, scenarioCtx, ArrowAnnotation.init,
      ArrowAnnotation.set_arrow_magnitude, listMin, listMax, List.foldl]
    norm_num

/-- C3: the point handed to the text-label draw call of an arrow render is
`anchor + direction × magnitude × text_position`; with `text_position = 0` it
is the anchor, with `text_position = 1` it is `anchor + direction × magnitude`. -/
theorem arrow_text_point_offset (g : Glacier3DViz) (a : ArrowAnnotation) :
    arrowTextPoint a g
        = vAdd (a.set_arrow_position g)
            (vMulS (vMulS a.arrow_direction (a.set_arrow_magnitude g))
              a.text_position)
    ∧ arrowTextPoint { a with text_position := 0 } g = a.set_arrow_position g
    ∧ arrowTextPoint { a with text_position := 1 } g
        = vAdd (a.set_arrow_position g)
            (vMulS a.arrow_direction (a.set_arrow_magnitude g)) := by
  refine ⟨rfl, ?_, ?_⟩
  · simp only [arrowTextPoint, ArrowAnnotation.add_annotation,
      ArrowAnnotation.set_arrow_position, ArrowAnnotation.set_arrow_magnitude,
      get_position, vAdd, vMulS, Prod.mk.injEq]
    refine ⟨?_, ?_, ?_⟩ <;> ring
  · simp only [arrowTextPoint, ArrowAnnotation.add_annotation,
      ArrowAnnotation.set_arrow_position, ArrowAnnotation.set_arrow_magnitude,
      get_position, vAdd, vMulS, Prod.mk.injEq]
    refine ⟨?_, ?_, ?_⟩ <;> ring

/-- C4: the outline texture has the mask's shape with 4 channels appended;
every pixel whose mask value is 1 holds exactly the normalized configured
color and every pixel whose mask value is 0 is all zeros (alpha 0). -/
theorem outline_texture_mask_pixels (nm : String) (c : ColorInput)
    (ann : OutlineAnnotation) (g : Glacier3DViz) (mask : List (List ℤ))
    (tex : Texture)
    (hinit : OutlineAnnotation.init nm c = .ok ann)
    (hmask : g.maskFields.lookup ann.outline_data = some mask)
    (htex : ann.set_outline_texture g = .ok tex) :
    check_color c = some ann.outline_color
    ∧ tex.length = mask.length
    ∧ ∀ (i : ℕ) (row : List ℤ), mask[i]? = some row →
        ∃ trow, tex[i]? = some trow ∧ trow.length = row.length
          ∧ ∀ (j : ℕ) (v : ℤ), row[j]? = some v →
              (v = 1 → trow[j]? = some ann.outline_color)
              ∧ (v = 0 → trow[j]? = some [0, 0, 0, 0]) := by
  have hcc : check_color c = some ann.outline_color := by
    unfold OutlineAnnotation.init at hinit
    cases hc : check_color c with
    | none => rw [hc] at hinit; cases hinit
    | some col => rw [hc] at hinit; cases hinit; rfl
  have htex2 : tex = mask.map (fun row =>
      row.map (fun v => if v = 1 then ann.outline_color else [0, 0, 0, 0])) := by
    unfold OutlineAnnotation.set_outline_texture at htex
    rw [hmask] at htex
    cases htex
    rfl
  subst htex2
  refine ⟨hcc, by simp, ?_⟩
  intro i row hrow
  refine ⟨row.map (fun v => if v = 1 then ann.outline_color else [0, 0, 0, 0]),
    ?_, by simp, ?_⟩
  · rw [List.getElem?_map, hrow]
    rfl
  · intro j v hv
    constructor
    · intro h1
      rw [List.getElem?_map, hv]
      simp [h1]
    · intro h0
      rw [List.getElem?_map, hv]
      subst h0
      simp

/-- Witness for C4 at the concrete 2×2 mask `[[0,1],[1,0]]` with a black
outline color. -/
theorem outline_texture_mask_pixels_witness :
    OutlineAnnotation.init "glacier_ext" (ColorInput.name "black") = .ok outlineAnn
    ∧ outlineCtx.maskFields.lookup outlineAnn.outline_data
        = some [[0, 1], [1, 0]]
    ∧ outlineAnn.set_outline_texture outlineCtx = .ok outlineTex
    ∧ check_color (ColorInput.name "black") = some outlineAnn.outline_color :=
  ⟨rfl, rfl, rfl,
    (outline_texture_mask_pixels "glacier_ext" (ColorInput.name "black")
      outlineAnn outlineCtx [[0, 1], [1, 0]] outlineTex rfl rfl rfl).1⟩

/-- C5 (code bug): with the `labels` argument omitted (`None`, its default),
`LegendAnnotation.__init__` runs `for label in self.labels` over `None` and
raises a `TypeError`, so construction fails instead of deferring to the
plotting surface's registered labels as the docstring promises. -/
theorem legend_init_none_raises (kwargs : Kwargs) :
    LegendAnnotation.init none kwargs
      = .error "TypeError: NoneType object is not iterable" := rfl

/-- Counterexample to C6 as stated: constructing a `LegendAnnotation` with an
empty label list raises no error — construction succeeds and the first render
issues the legend draw call with the empty list, so no configuration error is
surfaced at construction or first render. -/
theorem legend_empty_labels_accepted_cex :
    LegendAnnotation.init (some []) []
        = .ok { labels := [], kwargs := legendMergeKwargs [] }
    ∧ LegendAnnotation.add_annotation ( LegendAnnotation.mk [] (legendMergeKwargs [])) scenarioCtx
        = [DrawCall.legend [] (legendMergeKwargs [])] :=
  ⟨rfl, rfl⟩

/-- C6 amended: an empty label list is accepted silently — construction
succeeds with the empty list stored, and render forwards the empty list to
the legend-draw primitive; no error is raised by the annotation. -/
theorem legend_empty_labels_silently_accepted (kwargs : Kwargs)
    (g : Glacier3DViz) :
    LegendAnnotation.init (some []) kwargs
        = .ok { labels := [], kwargs := legendMergeKwargs kwargs }
    ∧ LegendAnnotation.add_annotation ( LegendAnnotation.mk [] (legendMergeKwargs kwargs)) g
        = [DrawCall.legend [] (legendMergeKwargs kwargs)] :=
  ⟨rfl, rfl⟩

/-- Counterexample to C7 as stated: with a 1×1 mask field and a 3×3 terrain
mesh grid — shapes that do not match — the outline render raises nothing: it
finishes successfully, so no fatal configuration error is raised by the
annotation at first render. -/
theorem outline_shape_mismatch_no_error_cex :
    maskShape [[(1 : ℤ)]] ≠ (outlineHeap.getD 0 defaultMesh).gridShape
    ∧ exceptOk ( OutlineAnnotation.add_annotation ( OutlineAnnotation.mk "m" [0, 0, 0, 255])
        { xField := [0], yField := [0], bedrockField := [0],
          maskFields := [("m", [[1]])], topo_mesh := 0 } outlineHeap) = true :=
  ⟨by decide, rfl⟩

/-- C7 amended: the outline annotation performs no shape check at all — even
when the mask's shape differs from the mesh's grid shape, the render succeeds,
building the texture with the mask's own shape and issuing the mesh draw call;
any failure would come from the external plotting library, not from the
annotation. -/
theorem outline_render_no_shape_check (ann : OutlineAnnotation)
    (g : Glacier3DViz) (h : Heap) (mask : List (List ℤ))
    (hmask : g.maskFields.lookup ann.outline_data = some mask)
    (_hdiff : maskShape mask ≠ (h.getD g.topo_mesh defaultMesh).gridShape) :
    ann.add_annotation g h
      = .ok (h ++ [h.getD g.topo_mesh defaultMesh],
          [DrawCall.meshDraw h.length
            (mask.map (fun row => row.map
              (fun v => if v = 1 then ann.outline_color else [0, 0, 0, 0])))]) := by
  unfold OutlineAnnotation.add_annotation OutlineAnnotation.set_outline_texture
  rw [hmask]
  rfl

/-- Witness for C7 at a concrete 2×2 mask against a 3×3 mesh grid. -/
theorem outline_render_no_shape_check_witness :
    outlineCtx.maskFields.lookup outlineAnn.outline_data = some [[0, 1], [1, 0]]
    ∧ maskShape [[0, 1], [1, 0]]
        ≠ (outlineHeap.getD outlineCtx.topo_mesh defaultMesh).gridShape
    ∧ outlineAnn.add_annotation outlineCtx outlineHeap
        = .ok (outlineHeap ++ [outlineHeap.getD outlineCtx.topo_mesh defaultMesh],
            [DrawCall.meshDraw outlineHeap.length
              (([[0, 1], [1, 0]] : List (List ℤ)).map (fun row => row.map
                (fun v => if v = 1 then outlineAnn.outline_color
                  else [0, 0, 0, 0])))]) :=
  ⟨rfl, by decide,
    outline_render_no_shape_check outlineAnn outlineCtx outlineHeap
      [[0, 1], [1, 0]] rfl (by decide)⟩

/-- C8: for every caller-supplied options mapping, the merged options are the
caller's mapping with the variant's fixed defaults filling only the missing
keys — a lookup finds the caller's entry when present and the default
otherwise — where the defaults are exactly: arrow `show_scalar_bar = False`,
`color = [0.2, 0.2, 0.2]`; text `shape = None`, `show_points = False`,
`font_size = 30`; legend `bcolor = (0.5, 0.5, 0.5)`, `size = (0.2, 0.1)`,
`loc = lower center`, `face = rectangle`; and the merged dictionaries are the
ones stored at construction and carried verbatim on the draw calls. -/
theorem kwargs_merge_defaults (d dt dl : Kwargs) (k : String) :
    (arrowMergeKwargs d).lookup k
        = ((d.lookup k).orElse (fun _ => arrowDefaultKwargs.lookup k))
    ∧ (textMergeKwargs dt).lookup k
        = ((dt.lookup k).orElse (fun _ => textDefaultKwargs.lookup k))
    ∧ (legendMergeKwargs dl).lookup k
        = ((dl.lookup k).orElse (fun _ => legendDefaultKwargs.lookup k))
    ∧ (∀ (xp yp zp xd yd zd m tp : ℚ) (t : String),
        ( ArrowAnnotation.init xp yp zp xd yd zd m t tp
            (some d) (some dt)).arrow_kwargs = arrowMergeKwargs d
        ∧ ( ArrowAnnotation.init xp yp zp xd yd zd m t tp
            (some d) (some dt)).text_kwargs = textMergeKwargs dt)
    ∧ (∀ (a : ArrowAnnotation) (g : Glacier3DViz),
        ( a.add_annotation g).map drawCallKwargs = [a.arrow_kwargs, a.text_kwargs])
    ∧ (∀ (la : LegendAnnotation) (g : Glacier3DViz),
        ( la.add_annotation g).map drawCallKwargs = [la.kwargs]) := by
  refine ⟨?_, ?_, ?_, fun _ _ _ _ _ _ _ _ _ => ⟨rfl, rfl⟩,
    fun a g => rfl, fun la g => rfl⟩
  · exact lookup_applyDefaults arrowDefaultKwargs d k
  · exact lookup_applyDefaults textDefaultKwargs dt k
  · exact lookup_applyDefaults legendDefaultKwargs dl k

/-- C9: no render mutates the shared visualization context. The mutable state
a render could reach is the mesh heap: the point, arrow and legend renders
issue no mesh draw call, so the heap is untouched, and the outline render
draws a deep copy of the context's terrain mesh, so even after the plotter
sets the active texture on the mesh it was handed, the context's own mesh
object is unchanged. -/
theorem render_preserves_context (g : Glacier3DViz) (h : Heap)
    (pa : PointAnnotation) (proj : ℚ → ℚ → ℚ × ℚ) (aa : ArrowAnnotation)
    (la : LegendAnnotation) (oa : OutlineAnnotation)
    (h2 : Heap) (calls : List DrawCall)
    (href : g.topo_mesh < h.length)
    (hrun : oa.add_annotation g h = .ok (h2, calls)) :
    renderEffect h ( pa.add_annotation proj g) = h
    ∧ renderEffect h ( aa.add_annotation g) = h
    ∧ renderEffect h ( la.add_annotation g) = h
    ∧ (renderEffect h2 calls)[g.topo_mesh]? = h[g.topo_mesh]? := by
  refine ⟨rfl, rfl, rfl, ?_⟩
  unfold OutlineAnnotation.add_annotation at hrun
  cases htex : oa.set_outline_texture g with
  | error e => rw [htex] at hrun; cases hrun
  | ok tex =>
      rw [htex] at hrun
      have hh2 : h2 = h ++ [h.getD g.topo_mesh defaultMesh] := by
        cases hrun; rfl
      have hcalls : calls = [DrawCall.meshDraw h.length tex] := by
        cases hrun; rfl
      subst hh2
      subst hcalls
      simp only [renderEffect, List.foldl, applyDrawCall]
      rw [List.getElem?_set_ne (show h.length ≠ g.topo_mesh by omega)]
      rw [List.getElem?_append]
      simp [href]

/-- Witness for C9 at the concrete outline context: one shared mesh on the
heap, referenced by the context, preserved across the outline render. -/
theorem render_preserves_context_witness :
    outlineCtx.topo_mesh < outlineHeap.length
    ∧ outlineAnn.add_annotation outlineCtx outlineHeap
        = .ok (outlineHeap ++ [outlineHeap.getD outlineCtx.topo_mesh defaultMesh],
            [DrawCall.meshDraw outlineHeap.length outlineTex])
    ∧ (renderEffect
          (outlineHeap ++ [outlineHeap.getD outlineCtx.topo_mesh defaultMesh])
          [DrawCall.meshDraw outlineHeap.length outlineTex])[outlineCtx.topo_mesh]?
        = outlineHeap[outlineCtx.topo_mesh]? :=
  ⟨by decide, rfl,
    (render_preserves_context outlineCtx outlineHeap
      { latitude := 0, longitude := 0, height := 0, text := "p", kwargs := [] }
      (fun a b => (a, b)) scenarioArrow
      { labels := [], kwargs := [] } outlineAnn
      (outlineHeap ++ [outlineHeap.getD outlineCtx.topo_mesh defaultMesh])
      [DrawCall.meshDraw outlineHeap.length outlineTex]
      (by decide) rfl).2.2.2⟩

/-- C10: construction operates in place on caller-supplied mutable arguments.
`LegendAnnotation.__init__` stores the caller's labels list and overwrites
every entry's color with its normalized RGBA value, so the caller's list
afterwards holds the normalized entries (and differs from its prior value
whenever a color was not already in RGBA form); `ArrowAnnotation.__init__` and
`LegendAnnotation.__init__` extend the caller's option dictionaries in place,
appending exactly the missing default entries (so a caller's empty dictionary
is no longer empty afterwards). -/
theorem init_mutates_caller_arguments (L : List (String × ColorInput))
    (kw d dt : Kwargs) (la : LegendAnnotation)
    (hinit : LegendAnnotation.init (some L) kw = .ok la) :
    (la.labels.length = L.length
      ∧ ∀ (i : ℕ) (p : String × ColorInput), L[i]? = some p →
          ∃ col, check_color p.2 = some col
            ∧ la.labels[i]? = some (p.1, .rgba col))
    ∧ (∃ tl, arrowMergeKwargs d = d ++ tl)
    ∧ (∃ tl, textMergeKwargs dt = dt ++ tl)
    ∧ (∃ tl, legendMergeKwargs kw = kw ++ tl)
    ∧ ( LegendAnnotation.init (some [("ice", ColorInput.name "blue")]) []
        = .ok ( LegendAnnotation.mk [("ice", ColorInput.rgba [0, 0, 255, 255])]
            (legendMergeKwargs []))
      ∧ ([("ice", ColorInput.rgba [0, 0, 255, 255])]
          : List (String × ColorInput)) ≠ [("ice", ColorInput.name "blue")])
    ∧ arrowMergeKwargs [] ≠ ([] : Kwargs)
    ∧ textMergeKwargs [] ≠ ([] : Kwargs)
    ∧ legendMergeKwargs [] ≠ ([] : Kwargs) := by
  have hinit2 : (do
      let ls2 ← normalizeLabels L
      Except.ok { labels := ls2, kwargs := legendMergeKwargs kw }
      : Except String LegendAnnotation) = Except.ok la := hinit
  have hlab : normalizeLabels L = .ok la.labels := by
    cases hn : normalizeLabels L with
    | error e => rw [hn] at hinit2; cases hinit2
    | ok ls2 => rw [hn] at hinit2; cases hinit2; rfl
  refine ⟨normalizeLabels_spec L la.labels hlab,
    applyDefaults_append arrowDefaultKwargs d,
    applyDefaults_append textDefaultKwargs dt,
    applyDefaults_append legendDefaultKwargs kw,
    ⟨rfl, by decide⟩, ?_, ?_, ?_⟩
  · intro hEq
    have := congrArg List.length hEq
    simp [arrowMergeKwargs, setdefault, List.lookup] at this
  · intro hEq
    have := congrArg List.length hEq
    simp [textMergeKwargs, setdefault, List.lookup] at this
  · intro hEq
    have := congrArg List.length hEq
    simp [legendMergeKwargs, setdefault, List.lookup] at this

/-- Witness for C10 at the concrete label list `[("ice", "blue")]`. -/
theorem init_mutates_caller_arguments_witness :
    LegendAnnotation.init (some [("ice", ColorInput.name "blue")]) []
        = .ok ( LegendAnnotation.mk [("ice", ColorInput.rgba [0, 0, 255, 255])]
            (legendMergeKwargs []))
    ∧ ( LegendAnnotation.mk [("ice", ColorInput.rgba [0, 0, 255, 255])]
        (legendMergeKwargs [])).labels.length
        = [("ice", ColorInput.name "blue")].length :=
  ⟨rfl,
    (init_mutates_caller_arguments [("ice", ColorInput.name "blue")] [] [] []
      ( LegendAnnotation.mk [("ice", ColorInput.rgba [0, 0, 255, 255])]
        (legendMergeKwargs [])) rfl).1.1⟩

end OggmViz
